import Mathlib

set_option linter.unusedVariables false
set_option linter.deprecated false

/-!
Shallow embedding of the DataNexus instruction-encoder client
(`src/js/src/instruction.ts` and the two revisions contained in
`src/js/instruction.ts`, separated there by a document marker).

Conventions of the embedding:
* a `PublicKey` (an opaque 32-byte key from the external web3 library,
  never inspected by this layer) is an opaque identifier, modelled as `Nat`;
* a `Uint8Array` / `Buffer` is a `List Nat` whose elements are bytes
  (callers construct them from byte values, so every element is below 256);
* `Uint8Array.of` applies the JS ToUint8 coercion (truncation modulo 256)
  to each argument, modelled by `toUint8`;
* `Buffer.concat` flattens a list of buffers, modelled by `bufferConcat`;
* a builder whose evaluation cannot produce a value (an empty function
  body returning `undefined`, or a body that raises a TypeError or a
  ReferenceError before constructing the record) is modelled as an
  `Option`-valued function returning `none`.

Revision naming: the complete file `src/js/src/instruction.ts` is revision S;
the first copy inside `src/js/instruction.ts` (three empty builder bodies)
is the Draft revision; the second copy (buffer-array hashes) is revision 2.
Identical function bodies shared verbatim by several revisions are embedded
once (`initUserAccountIx` by all three revisions, `initDataAccountIx` by
revision S and the Draft revision).
-/

/-- PublicKey is an opaque account identifier; this layer never inspects
its internal structure (spec section 3, AccountIdentifier), so it is
modelled as a bare `Nat`. -/
abbrev PublicKey := Nat

/-- AccountMeta mirrors the element shape of the `keys` arrays in the
source: an account identifier plus the signer and writable flags. -/
structure AccountMeta where
  pubkey : PublicKey
  isSigner : Bool
  isWritable : Bool
deriving DecidableEq, Repr

/-- TransactionInstruction mirrors the record each builder returns:
program identifier, ordered account references, and a flat byte payload. -/
structure TransactionInstruction where
  programId : PublicKey
  keys : List AccountMeta
  data : List Nat
deriving DecidableEq, Repr

/-- TransactionInstructionArrayData is the shape actually produced by
`purchaseAccess` in revision 2 of `src/js/instruction.ts` (lines 162-190):
its `data:` field receives the JS array `buffers` itself, not
`Buffer.concat(buffers)`, so the data member is a list of buffers rather
than a flat byte sequence. -/
structure TransactionInstructionArrayData where
  programId : PublicKey
  keys : List AccountMeta
  data : List (List Nat)
deriving DecidableEq, Repr

/-- Modelled from the spec: `DATANEXUS_PROGRAM_ID` is referenced by every
builder but declared elsewhere in the repository, outside `src/`. Spec
sections 6 and 9 describe it as a constant, opaque 32-byte program
identifier fixed per deployment whose value this layer never interprets,
so an arbitrary fixed identifier represents it. -/
def DATANEXUS_PROGRAM_ID : PublicKey := 0

/-- AccountType is the two-value enum of both source files (OWNER = 0,
ACCESS = 1). -/
inductive AccountType where
  | OWNER : AccountType
  | ACCESS : AccountType
deriving DecidableEq, Repr

/-- Numeric value of an `AccountType`, as fixed by the enum declaration. -/
def AccountType.toTag : AccountType → Nat
  | .OWNER => 0
  | .ACCESS => 1

/-- JS ToUint8 coercion applied by `Uint8Array.of` to each argument:
truncation modulo 256. -/
def toUint8 (n : Nat) : Nat := n % 256

/-- Embeds `Uint8Array.of(a, b, ...)`: each argument coerced to a byte. -/
def uint8ArrayOf (l : List Nat) : List Nat := l.map toUint8

/-- Embeds `Buffer.concat(list)`: flatten a list of buffers. -/
def bufferConcat (l : List (List Nat)) : List Nat := l.join

/-- Modelled from the spec: `Numberu64` is external library code (not in
`src/`); spec section 3 fixes the Amount encoding its `toBuffer()` method
produces as 8 bytes, little-endian unsigned, for values within 64 bits. -/
def numberu64ToBuffer (amount : Nat) : List Nat :=
  (List.range 8).map (fun i => amount / 256 ^ i % 256)

/-- Modelled from the spec: the `Params` type is referenced by
`setDataParams` but never declared in the observed sources; spec section 9
models it as an externally pre-serialized byte blob. -/
abbrev Params := List Nat

/-- `initUserAccountIx` as written identically in all three revisions
(`src/js/src/instruction.ts` lines 12-32, `src/js/instruction.ts` lines
12-32 and 97-117): four fixed account references and the payload
`Uint8Array.of(0, accountType)`. -/
def initUserAccountIx (payer authority userAccount systemProgram : PublicKey)
    (accountType : AccountType) : TransactionInstruction :=
  { programId := DATANEXUS_PROGRAM_ID
    keys :=
      [ ⟨payer, true, true⟩
      , ⟨authority, false, true⟩
      , ⟨userAccount, false, true⟩
      , ⟨systemProgram, false, false⟩ ]
    data := uint8ArrayOf (0 :: [accountType.toTag]) }

/-- `initDataAccountIx` as written identically in revision S
(`src/js/src/instruction.ts` lines 34-54) and the Draft revision
(`src/js/instruction.ts` lines 34-54): hash is a single `Uint8Array`,
payload `Uint8Array.of(1, ...hash)`. -/
def initDataAccountIx (authority ownerAccount datasetAccount systemProgram : PublicKey)
    (hash : List Nat) : TransactionInstruction :=
  { programId := DATANEXUS_PROGRAM_ID
    keys :=
      [ ⟨authority, true, true⟩
      , ⟨ownerAccount, false, true⟩
      , ⟨datasetAccount, false, true⟩
      , ⟨systemProgram, false, false⟩ ]
    data := uint8ArrayOf (1 :: hash) }

/-- `initDataAccountIx` of revision 2 (`src/js/instruction.ts` lines
119-140): hash is an array of buffers, payload
`Buffer.concat([Buffer.from(Uint8Array.of(1)), Buffer.concat(hash)])`. -/
def initDataAccountIx2 (authority ownerAccount datasetAccount systemProgram : PublicKey)
    (hash : List (List Nat)) : TransactionInstruction :=
  { programId := DATANEXUS_PROGRAM_ID
    keys :=
      [ ⟨authority, true, true⟩
      , ⟨ownerAccount, false, true⟩
      , ⟨datasetAccount, false, true⟩
      , ⟨systemProgram, false, false⟩ ]
    data := bufferConcat [uint8ArrayOf [1], bufferConcat hash] }

/-- `setDataParams` of revision S (`src/js/src/instruction.ts` lines
56-73). The second element of its `keys` array reads the name
`datasetAccount`, but the parameter is spelled `dataSetAccount` and no
binding named `datasetAccount` is in scope, so evaluating the body raises
a ReferenceError before any record is constructed: the call never returns
a record, modelled as `none`. (Its `data` expression, had it been reached,
would also drop `params`: `Uint8Array.of(2, ...hash)`.) -/
def setDataParamsS (authority dataSetAccount : PublicKey) (hash : List Nat)
    (params : Params) : Option TransactionInstruction :=
  none

/-- `setDataParams` of the Draft revision (`src/js/instruction.ts` lines
56-62): the function body is empty, so the call resolves to `undefined`,
modelled as `none`. -/
def setDataParamsDraft (authority dataSetAccount : PublicKey) (hash : List Nat)
    (params : Params) : Option TransactionInstruction :=
  none

/-- `setDataParams` of revision 2 (`src/js/instruction.ts` lines 142-160):
two account references and payload
`Buffer.concat([Buffer.from(Uint8Array.of(2)), Buffer.concat(hash)])`.
The `params` argument is accepted but never used. -/
def setDataParams2 (authority datasetAccount : PublicKey) (hash : List (List Nat))
    (params : Params) : TransactionInstruction :=
  { programId := DATANEXUS_PROGRAM_ID
    keys :=
      [ ⟨authority, true, true⟩
      , ⟨datasetAccount, false, true⟩ ]
    data := bufferConcat [uint8ArrayOf [2], bufferConcat hash] }

/-- `purchaseAccess` of revision S (`src/js/src/instruction.ts` lines
75-102). Its data expression `Uint8Array.of(3, ...hash, ...amount)`
spreads `amount`, a plain number, and numbers are not iterable, so
evaluation raises a TypeError before the record is constructed: the call
never returns a record, modelled as `none`. -/
def purchaseAccessS (userAuthority userAccessAccount userTokenAccount
    ownerAuthority ownerTokenAccount datasetAccount tokenProgram : PublicKey)
    (hash : List Nat) (amount : Nat) : Option TransactionInstruction :=
  none

/-- `purchaseAccess` of the Draft revision (`src/js/instruction.ts` lines
64-75): the function body is empty, so the call resolves to `undefined`,
modelled as `none`. -/
def purchaseAccessDraft (userAuthority userAccessAccount userTokenAccount
    ownerAuthority ownerTokenAccount datasetAccount tokenProgram : PublicKey)
    (hash : List Nat) (amount : Nat) : Option TransactionInstruction :=
  none

/-- `purchaseAccess` of revision 2 (`src/js/instruction.ts` lines
162-190): it builds
`buffers = [Buffer.from(Uint8Array.of(3)), Buffer.concat(hash), amount.toBuffer()]`
but then assigns `data: buffers` without concatenating, so the data member
of the returned record is the three-element list of buffers itself. -/
def purchaseAccess2 (userAuthority userAccessAccount userTokenAccount
    ownerAuthority ownerTokenAccount datasetAccount tokenProgram : PublicKey)
    (hash : List (List Nat)) (amount : Nat) : TransactionInstructionArrayData :=
  { programId := DATANEXUS_PROGRAM_ID
    keys :=
      [ ⟨userAuthority, true, true⟩
      , ⟨userAccessAccount, false, true⟩
      , ⟨userTokenAccount, false, true⟩
      , ⟨ownerAuthority, false, true⟩
      , ⟨ownerTokenAccount, false, true⟩
      , ⟨datasetAccount, false, false⟩
      , ⟨tokenProgram, false, false⟩ ]
    data := [uint8ArrayOf [3], bufferConcat hash, numberu64ToBuffer amount] }

/-- `shareAccess` of revision S (`src/js/src/instruction.ts` lines
104-126): five account references and payload `Uint8Array.of(4, ...hash)`. -/
def shareAccess (userAuthority userAccessAccount recipientAuthority
    recipientAccessAccount datasetAccount : PublicKey)
    (hash : List Nat) : TransactionInstruction :=
  { programId := DATANEXUS_PROGRAM_ID
    keys :=
      [ ⟨userAuthority, true, true⟩
      , ⟨userAccessAccount, false, true⟩
      , ⟨recipientAuthority, false, true⟩
      , ⟨recipientAccessAccount, false, true⟩
      , ⟨datasetAccount, false, false⟩ ]
    data := uint8ArrayOf (4 :: hash) }

/-- `shareAccess` of the Draft revision (`src/js/instruction.ts` lines
77-85): the function body is empty, so the call resolves to `undefined`,
modelled as `none`. -/
def shareAccessDraft (userAuthority userAccessAccount recipientAuthority
    recipientAccessAccount datasetAccount : PublicKey)
    (hash : List Nat) : Option TransactionInstruction :=
  none

/-- `shareAccess` of revision 2 (`src/js/instruction.ts` lines 192-215):
five account references and payload
`Buffer.concat([Buffer.from(Uint8Array.of(4)), Buffer.concat(hash)])`. -/
def shareAccess2 (userAuthority userAccessAccount recipientAuthority
    recipientAccessAccount datasetAccount : PublicKey)
    (hash : List (List Nat)) : TransactionInstruction :=
  { programId := DATANEXUS_PROGRAM_ID
    keys :=
      [ ⟨userAuthority, true, true⟩
      , ⟨userAccessAccount, false, true⟩
      , ⟨recipientAuthority, false, true⟩
      , ⟨recipientAccessAccount, false, true⟩
      , ⟨datasetAccount, false, false⟩ ]
    data := bufferConcat [uint8ArrayOf [4], bufferConcat hash] }

/-- Helper: the ToUint8 coercion is the identity on lists whose elements
are already bytes (as the elements of any `Uint8Array` are). -/
theorem map_toUint8_of_bytes (l : List Nat) (h : ∀ b ∈ l, b < 256) :
    l.map toUint8 = l := by
  induction l with
  | nil => rfl
  | cons x xs ih =>
      have hx : toUint8 x = x := Nat.mod_eq_of_lt (h x (by simp))
      have hxs : xs.map toUint8 = xs := ih (fun b hb => h b (by simp [hb]))
      simp [hx, hxs]

/-- Claim C1: every account list carried by a returned instruction record
matches the section 4.2 table exactly — same number of accounts, same
order of roles, and the same signer and writable flag at every position
(in particular PurchaseAccess yields exactly seven references with the
flags listed in the table). Builders that never return a record (the
empty Draft bodies, and the two revision-S bodies that raise before
constructing the record) produce no account list at all, so the lists
below are all the lists the code ever produces. -/
theorem c1_account_reference_tables :
    (∀ p a u s t, (initUserAccountIx p a u s t).keys =
      [⟨p, true, true⟩, ⟨a, false, true⟩, ⟨u, false, true⟩, ⟨s, false, false⟩]) ∧
    (∀ a o d s h, (initDataAccountIx a o d s h).keys =
      [⟨a, true, true⟩, ⟨o, false, true⟩, ⟨d, false, true⟩, ⟨s, false, false⟩]) ∧
    (∀ a o d s h, (initDataAccountIx2 a o d s h).keys =
      [⟨a, true, true⟩, ⟨o, false, true⟩, ⟨d, false, true⟩, ⟨s, false, false⟩]) ∧
    (∀ a d h p, (setDataParams2 a d h p).keys =
      [⟨a, true, true⟩, ⟨d, false, true⟩]) ∧
    (∀ ua uaa uta oa ota da tp h amt,
      (purchaseAccess2 ua uaa uta oa ota da tp h amt).keys =
      [⟨ua, true, true⟩, ⟨uaa, false, true⟩, ⟨uta, false, true⟩, ⟨oa, false, true⟩,
       ⟨ota, false, true⟩, ⟨da, false, false⟩, ⟨tp, false, false⟩]) ∧
    (∀ ua uaa ra raa da h, (shareAccess ua uaa ra raa da h).keys =
      [⟨ua, true, true⟩, ⟨uaa, false, true⟩, ⟨ra, false, true⟩,
       ⟨raa, false, true⟩, ⟨da, false, false⟩]) ∧
    (∀ ua uaa ra raa da h, (shareAccess2 ua uaa ra raa da h).keys =
      [⟨ua, true, true⟩, ⟨uaa, false, true⟩, ⟨ra, false, true⟩,
       ⟨raa, false, true⟩, ⟨da, false, false⟩]) := by
  refine ⟨?_, ?_, ?_, ?_, ?_, ?_, ?_⟩ <;> intros <;> rfl

/-- Claim C2: the opcode invariant (payload byte 0 equals the fixed opcode
0 to 4) holds for every builder that returns a flat byte payload, but the
code breaks it for PurchaseAccess: revision S raises a TypeError while
spreading the numeric amount and returns nothing, and revision 2 returns
a record whose data member is the unconcatenated three-buffer list, so
the head of its data is the one-byte buffer containing 3 rather than the
byte 3 — its payload is not a byte sequence at all. -/
theorem c2_opcode_first_byte :
    (∀ p a u s t, (initUserAccountIx p a u s t).data.head? = some 0) ∧
    (∀ a o d s h, (initDataAccountIx a o d s h).data.head? = some 1) ∧
    (∀ a o d s h, (initDataAccountIx2 a o d s h).data.head? = some 1) ∧
    (∀ a d h p, (setDataParams2 a d h p).data.head? = some 2) ∧
    (∀ ua uaa ra raa da h, (shareAccess ua uaa ra raa da h).data.head? = some 4) ∧
    (∀ ua uaa ra raa da h, (shareAccess2 ua uaa ra raa da h).data.head? = some 4) ∧
    purchaseAccessS 0 1 2 3 4 5 6 (List.replicate 32 0) 1 = none ∧
    (purchaseAccess2 0 1 2 3 4 5 6 [List.replicate 32 0] 1).data.head? = some [3] := by
  refine ⟨?_, ?_, ?_, ?_, ?_, ?_, rfl, rfl⟩ <;> intros <;> rfl

/-- Claim C3: at hash = 32 zero bytes and amount = 1, neither revision of
purchaseAccess returns the claimed flat payload. Revision S raises a
TypeError (spread of a non-iterable number) and returns nothing; revision
2 returns a record whose data member is the unconcatenated list of three
buffers, namely the opcode buffer, the 32 zero hash bytes, and the 8-byte
little-endian amount buffer, and even the flattening of that list is 41
bytes, not 42 as the claim counts. -/
theorem c3_purchaseAccess_payload_divergence :
    purchaseAccessS 0 1 2 3 4 5 6 (List.replicate 32 0) 1 = none ∧
    (purchaseAccess2 0 1 2 3 4 5 6 [List.replicate 32 0] 1).data =
      [[3], List.replicate 32 0, [1, 0, 0, 0, 0, 0, 0, 0]] ∧
    (purchaseAccess2 0 1 2 3 4 5 6 [List.replicate 32 0] 1).data.flatten.length = 41 := by
  refine ⟨rfl, by decide, by decide⟩

/-- Claim C4: no revision of setDataParams ever appends the params bytes.
At a 32-byte hash and a one-byte params value, revision 2 returns a
33-byte payload consisting of the opcode byte and the hash only — not the
claimed 33 + 1 bytes — and revision S raises a ReferenceError on the
unbound name datasetAccount and returns nothing. -/
theorem c4_setDataParams_ignores_params :
    (setDataParams2 0 1 [List.replicate 32 0] [5]).data = 2 :: List.replicate 32 0 ∧
    (setDataParams2 0 1 [List.replicate 32 0] [5]).data.length = 33 ∧
    (setDataParams2 0 1 [List.replicate 32 0] [5]).data.length ≠
      33 + ([5] : Params).length ∧
    setDataParamsS 0 1 (List.replicate 32 0) [5] = none := by
  refine ⟨by decide, by decide, by decide, rfl⟩

/-- Claim C5: the builders are not total. In the Draft revision the bodies
of setDataParams, purchaseAccess and shareAccess are empty, so each call
resolves to an absent result; in revision S, setDataParams raises a
ReferenceError (unbound name datasetAccount) and purchaseAccess raises a
TypeError (spread of the non-iterable numeric amount), so neither returns
an instruction record on any input. -/
theorem c5_builders_not_total :
    setDataParamsDraft 0 1 (List.replicate 32 0) [] = none ∧
    purchaseAccessDraft 0 1 2 3 4 5 6 (List.replicate 32 0) 1 = none ∧
    shareAccessDraft 0 1 2 3 4 (List.replicate 32 0) = none ∧
    setDataParamsS 0 1 (List.replicate 32 0) [] = none ∧
    purchaseAccessS 0 1 2 3 4 5 6 (List.replicate 32 0) 1 = none :=
  ⟨rfl, rfl, rfl, rfl, rfl⟩

/-- Claim C6: for every input the payload of initUserAccountIx is exactly
2 bytes, and with accountType = ACCESS (value 1) the payload is the byte
pair 0, 1. -/
theorem c6_initUserAccount_payload :
    (∀ p a u s t, (initUserAccountIx p a u s t).data.length = 2) ∧
    (∀ p a u s, (initUserAccountIx p a u s AccountType.ACCESS).data = [0, 1]) := by
  constructor <;> intros <;> rfl

/-- Claim C7: every builder is deterministic — two invocations with equal
arguments (under the one fixed program-identifier constant) return equal
instruction records, hence byte-identical payloads and identical account
lists. Stated as congruence over each argument of each record-returning
builder. -/
theorem c7_builders_deterministic :
    (∀ p p' a a' u u' s s' t t', p = p' → a = a' → u = u' → s = s' → t = t' →
      initUserAccountIx p a u s t = initUserAccountIx p' a' u' s' t') ∧
    (∀ a a' o o' d d' s s' h h', a = a' → o = o' → d = d' → s = s' → h = h' →
      initDataAccountIx a o d s h = initDataAccountIx a' o' d' s' h') ∧
    (∀ a a' o o' d d' s s' h h', a = a' → o = o' → d = d' → s = s' → h = h' →
      initDataAccountIx2 a o d s h = initDataAccountIx2 a' o' d' s' h') ∧
    (∀ a a' d d' h h' p p', a = a' → d = d' → h = h' → p = p' →
      setDataParams2 a d h p = setDataParams2 a' d' h' p') ∧
    (∀ ua ua' ub ub' uc uc' oa oa' ob ob' dc dc' tp tp' h h' m m',
      ua = ua' → ub = ub' → uc = uc' → oa = oa' → ob = ob' → dc = dc' →
      tp = tp' → h = h' → m = m' →
      purchaseAccess2 ua ub uc oa ob dc tp h m =
      purchaseAccess2 ua' ub' uc' oa' ob' dc' tp' h' m') ∧
    (∀ ua ua' ub ub' ra ra' rb rb' dc dc' h h',
      ua = ua' → ub = ub' → ra = ra' → rb = rb' → dc = dc' → h = h' →
      shareAccess ua ub ra rb dc h = shareAccess ua' ub' ra' rb' dc' h') ∧
    (∀ ua ua' ub ub' ra ra' rb rb' dc dc' h h',
      ua = ua' → ub = ub' → ra = ra' → rb = rb' → dc = dc' → h = h' →
      shareAccess2 ua ub ra rb dc h = shareAccess2 ua' ub' ra' rb' dc' h') := by
  refine ⟨?_, ?_, ?_, ?_, ?_, ?_, ?_⟩ <;> intros <;> subst_vars <;> rfl

/-- Witness for claim C7 at concrete arguments. -/
theorem c7_builders_deterministic_witness :
    initUserAccountIx 10 11 12 13 AccountType.ACCESS =
    initUserAccountIx 10 11 12 13 AccountType.ACCESS :=
  c7_builders_deterministic.1 10 10 11 11 12 12 13 13
    AccountType.ACCESS AccountType.ACCESS rfl rfl rfl rfl rfl

/-- Claim C8: in every account list the code produces, exactly one
account has the signer flag set, and it is the first account of the list;
every later account has the signer flag cleared. -/
theorem c8_unique_leading_signer :
    (∀ p a u s t, (initUserAccountIx p a u s t).keys.map AccountMeta.isSigner =
      [true, false, false, false]) ∧
    (∀ a o d s h, (initDataAccountIx a o d s h).keys.map AccountMeta.isSigner =
      [true, false, false, false]) ∧
    (∀ a o d s h, (initDataAccountIx2 a o d s h).keys.map AccountMeta.isSigner =
      [true, false, false, false]) ∧
    (∀ a d h p, (setDataParams2 a d h p).keys.map AccountMeta.isSigner =
      [true, false]) ∧
    (∀ ua uaa uta oa ota da tp h amt,
      (purchaseAccess2 ua uaa uta oa ota da tp h amt).keys.map AccountMeta.isSigner =
      [true, false, false, false, false, false, false]) ∧
    (∀ ua uaa ra raa da h, (shareAccess ua uaa ra raa da h).keys.map AccountMeta.isSigner =
      [true, false, false, false, false]) ∧
    (∀ ua uaa ra raa da h, (shareAccess2 ua uaa ra raa da h).keys.map AccountMeta.isSigner =
      [true, false, false, false, false]) := by
  refine ⟨?_, ?_, ?_, ?_, ?_, ?_, ?_⟩ <;> intros <;> rfl

/-- Claim C9: the result of setDataParams does not depend on the params
argument — in every revision, two calls differing only in params return
identical results (hence identical program identifier, account list and
payload bytes). -/
theorem c9_setDataParams_params_independent :
    (∀ a d h p1 p2, setDataParams2 a d h p1 = setDataParams2 a d h p2) ∧
    (∀ a d h p1 p2, setDataParamsS a d h p1 = setDataParamsS a d h p2) ∧
    (∀ a d h p1 p2, setDataParamsDraft a d h p1 = setDataParamsDraft a d h p2) := by
  refine ⟨?_, ?_, ?_⟩ <;> intros <;> rfl

/-- Claim C10: the revision-S hash-taking builders validate nothing about
the hash length — for a hash of any byte length n, initDataAccountIx and
shareAccess return a record whose payload is the opcode byte followed by
the hash bytes verbatim, of length exactly 1 + n, never truncated or
padded. -/
theorem c10_no_hash_length_validation :
    ∀ (a o d s ua uaa ra raa da : PublicKey) (hash : List Nat),
    (∀ b ∈ hash, b < 256) →
    (initDataAccountIx a o d s hash).data = 1 :: hash ∧
    (initDataAccountIx a o d s hash).data.length = 1 + hash.length ∧
    (shareAccess ua uaa ra raa da hash).data = 4 :: hash ∧
    (shareAccess ua uaa ra raa da hash).data.length = 1 + hash.length := by
  intro a o d s ua uaa ra raa da hash h
  have h1 : hash.map toUint8 = hash := map_toUint8_of_bytes hash h
  refine ⟨?_, ?_, ?_, ?_⟩
  · show (1 :: hash).map toUint8 = 1 :: hash
    rw [List.map_cons, h1]; rfl
  · show ((1 :: hash).map toUint8).length = 1 + hash.length
    rw [List.length_map, List.length_cons, Nat.add_comm]
  · show (4 :: hash).map toUint8 = 4 :: hash
    rw [List.map_cons, h1]; rfl
  · show ((4 :: hash).map toUint8).length = 1 + hash.length
    rw [List.length_map, List.length_cons, Nat.add_comm]

/-- Witness for claim C10 at a concrete hash of length 3 (not 32). -/
theorem c10_no_hash_length_validation_witness :
    (∀ b ∈ ([7, 8, 9] : List Nat), b < 256) ∧
    ((initDataAccountIx 20 21 22 23 [7, 8, 9]).data = 1 :: [7, 8, 9] ∧
     (initDataAccountIx 20 21 22 23 [7, 8, 9]).data.length = 1 + ([7, 8, 9] : List Nat).length ∧
     (shareAccess 30 31 32 33 34 [7, 8, 9]).data = 4 :: [7, 8, 9] ∧
     (shareAccess 30 31 32 33 34 [7, 8, 9]).data.length = 1 + ([7, 8, 9] : List Nat).length) :=
  ⟨by decide, c10_no_hash_length_validation 20 21 22 23 30 31 32 33 34 [7, 8, 9] (by decide)⟩
